import Mathlib

/-!
# Verification of the SmartIR climate component
  (custom_components/smartir/climate.py)

Shallow embedding of the `SmartIRClimate` entity: the command table, the
command-resolution and dispatch logic (`send_command`), the state-machine
operations (`async_set_hvac_mode`, `async_set_temperature`,
`async_set_fan_mode`, `async_set_swing_mode`, `async_turn_on`,
`async_turn_off`) and the sensor handlers (`_async_power_sensor_changed`,
`_async_temp_sensor_changed`, `_async_humidity_sensor_changed`).

Conventions of the embedding:
* Python dicts from the device JSON become association lists
  (`List (String × CmdNode)`); `dict.get` / `dict[...]` become `lookupAL`.
* Python strings are `String`; `str.lower()` is `strLower` (ASCII, which is
  all the HVAC vocabulary uses).
* Temperatures are `ℚ`; Python `round` (banker's rounding, half to even) is
  `pyRound` / `pyRound1`; the `'{0:g}'.format` lookup key is `formatTemp`,
  modelled for the decimal values the component produces.
* Transport calls (`self._controller.send`) and the inter-command sleep are
  recorded in an event trace `List Ev`; a function that sends returns its
  trace alongside its result.
* Python exceptions become `Except SendErr` / an error component; the
  `async_handle_exception_deco` wrapper around `send_command` is
  `sendCommandObserved` (it catches everything, logs, and returns `None`).
-/

/-- `HVAC_MODE_OFF` from homeassistant.components.climate.const. -/
def HVAC_MODE_OFF : String := "off"

/-- `STATE_ON` from homeassistant.const. -/
def STATE_ON : String := "on"

/-- `STATE_OFF` from homeassistant.const. -/
def STATE_OFF : String := "off"

/-- The `HVAC_MODES` vocabulary of the host platform (the valid hvac mode
strings of homeassistant.components.climate.const). -/
def HVAC_MODES : List String :=
  ["off", "heat", "cool", "auto", "dry", "fan_only", "heat_cool"]

/-- ASCII lowercasing of one character, as Python `str.lower` acts on the
ASCII range (all strings in the HVAC vocabulary are ASCII). -/
def lowerChar (c : Char) : Char :=
  if 'A' ≤ c ∧ c ≤ 'Z' then Char.ofNat (c.toNat + 32) else c

/-- Python `s.lower()`. -/
def strLower (s : String) : String := ⟨s.data.map lowerChar⟩

/-- A value of the nested command table from the device JSON: either a leaf
transmittable code (a JSON string) or a nested JSON object. -/
inductive CmdNode where
  | code (c : String)
  | table (entries : List (String × CmdNode))

/-- Association-list lookup, modelling Python `dict[...]` / `dict.get` on the
JSON objects. -/
def lookupAL (l : List (String × CmdNode)) (k : String) : Option CmdNode :=
  match l with
  | [] => none
  | (k', v) :: rest => if k' = k then some v else lookupAL rest k

/-- Python truthiness of a JSON value: an empty string or empty object is
falsy (relevant to `op_mode_data.get(fan) or op_mode_data.get('default')`). -/
def cmdTruthy : CmdNode → Bool
  | .code c => !(c = "")
  | .table entries => !entries.isEmpty

example : strLower "OFf" = "off" := by decide
example : lookupAL [("a", .code "x"), ("b", .code "y")] "b" = some (.code "y") := by rfl

/-- `q * k` computed on the numerator (kernel-evaluable scaling of a rational
by an integer; `decimalShift_eq` below identifies it with multiplication). -/
def decimalShift (q : ℚ) (k : ℤ) : ℚ := mkRat (q.num * k) q.den

theorem decimalShift_eq (q : ℚ) (k : ℤ) : decimalShift q k = q * k := by
  rw [decimalShift, Rat.mkRat_eq_div, Int.cast_mul, mul_div_right_comm, Rat.num_div_den]

/-- Python `round(q)`: round half to even (banker's rounding), as Python 3's
built-in `round` with no second argument.  The fractional part
`q - ⌊q⌋ = (q.num - ⌊q⌋·q.den) / q.den` is compared with `1/2` in integer
arithmetic: `q - ⌊q⌋ < 1/2 ↔ 2·(q.num - ⌊q⌋·q.den) < q.den`. -/
def pyRound (q : ℚ) : ℤ :=
  if 2 * (q.num - ⌊q⌋ * q.den) < (q.den : ℤ) then ⌊q⌋
  else if (q.den : ℤ) < 2 * (q.num - ⌊q⌋ * q.den) then ⌊q⌋ + 1
  else if ⌊q⌋ % 2 = 0 then ⌊q⌋ else ⌊q⌋ + 1

/-- Python `round(q, 1)`: round to one decimal digit, half to even (the
mathematical value; the float-representation noise of CPython's `round(x, 1)`
is out of scope of the embedding). -/
def pyRound1 (q : ℚ) : ℚ := mkRat (pyRound (decimalShift q 10)) 10

example : pyRound (mkRat 224 10) = 22 := by decide
example : pyRound (mkRat 45 2) = 22 := by decide
example : pyRound (mkRat 47 2) = 24 := by decide
example : pyRound1 (mkRat 2245 100) = mkRat 224 10 := by decide

/-- `'{0:g}'.format(t)` on the decimal temperature values the component
stores: whole numbers render without a fractional part, tenths and hundredths
with one resp. two decimal digits (the repository's profiles author their
temperature keys this way; other rationals fall back to the `Rat` repr and
are unreachable in the modelled scenarios). -/
def formatTemp (q : ℚ) : String :=
  let sign := if q < 0 then "-" else ""
  if q.den = 1 then
    sign ++ toString q.num.natAbs
  else if (decimalShift q 10).den = 1 then
    let n := (decimalShift q 10).num.natAbs
    sign ++ toString (n / 10) ++ "." ++ toString (n % 10)
  else if (decimalShift q 100).den = 1 then
    let n := (decimalShift q 100).num.natAbs
    sign ++ toString (n / 100) ++ "." ++ toString (n % 100 / 10) ++ toString (n % 10)
  else
    sign ++ toString q.num ++ "/" ++ toString q.den

example : formatTemp 22 = "22" := by decide
example : formatTemp (mkRat 45 2) = "22.5" := by decide
example : formatTemp (mkRat 161 10) = "16.1" := by decide

/-- The device JSON (`device_data`) fields the core consumes, as read in
`SmartIRClimate.__init__`.  `operationModes` is the already-filtered list the
constructor builds: `[HVAC_MODE_OFF] + [x for x in device_data['operationModes']
if x in HVAC_MODES]`. -/
structure DeviceProfile where
  minTemperature : ℚ
  maxTemperature : ℚ
  /-- `device_data['precision']`; `PRECISION_WHOLE = 1`, `PRECISION_HALVES = 0.5`,
  `PRECISION_TENTHS = 0.1`. -/
  precision : ℚ
  operationModes : List String
  fanModes : List String
  /-- `device_data.get('swingModes')`: `none` when the key is absent. -/
  swingModes : Option (List String)
  /-- `device_data['commands']`. -/
  commands : List (String × CmdNode)

/-- The per-entity configuration the modelled operations depend on. -/
structure DeviceConfig where
  profile : DeviceProfile
  /-- `self._delay` (seconds of `asyncio.sleep` between the `on` pulse and the
  mode command). -/
  delay : ℚ
  /-- `self._default_on_operation_mode` after the `__init__` fallback logic. -/
  defaultOnOperationMode : String
  /-- `self._power_sensor_restore_state`. -/
  powerSensorRestoreState : Bool

/-- `self.is_swing_supported`: `bool(self._swing_modes)` — true iff the
profile has a non-empty `swingModes` list. -/
def isSwingSupported (p : DeviceProfile) : Bool :=
  match p.swingModes with
  | some l => !l.isEmpty
  | none => false

/-- The mutable fields of a `SmartIRClimate` entity. -/
structure ClimateState where
  /-- `self._hvac_mode`. -/
  hvacMode : String
  /-- `self._current_fan_mode`. -/
  fanMode : String
  /-- `self._current_swing_mode` (`None` when swing is unsupported). -/
  swingMode : Option String
  /-- `self._target_temperature`. -/
  targetTemperature : ℚ
  /-- `self._last_on_operation`. -/
  lastOnOperation : Option String
  /-- `self._current_temperature`. -/
  currentTemperature : Option ℚ
  /-- `self._current_humidity`. -/
  currentHumidity : Option ℚ

/-- The transport-visible events of one dispatch: a `self._controller.send(c)`
call, or the `asyncio.sleep(self._delay)` settle pause. -/
inductive Ev where
  | send (c : CmdNode)
  | sleep (d : ℚ)

/-- The Python exceptions `send_command` can raise: a missing dict key
(`KeyError`), indexing `None` or a string with a string key (`TypeError`),
`.get` on a string (`AttributeError`). -/
inductive SendErr where
  | keyError
  | typeError
  | attrError
deriving DecidableEq

/-- The code-lookup part of `send_command` (climate.py lines 415–426), for a
non-off operation mode:

    op_mode_data = self._commands[operation_mode]
    fan_mode_data = op_mode_data.get(self._current_fan_mode) or op_mode_data.get('default')
    if self.is_swing_supported:
        swing_mode_data = fan_mode_data[self._current_swing_mode]
        cmd = swing_mode_data
        if isinstance(swing_mode_data, dict):
            cmd = swing_mode_data[target_temperature]
    else:
        cmd = fan_mode_data[target_temperature]

A missing dict key raises `KeyError`; `None[...]` and `'...'[str]` raise
`TypeError`; `.get` on a leaf string raises `AttributeError`. -/
def resolveCode (p : DeviceProfile) (s : ClimateState) (operationMode : String) :
    Except SendErr CmdNode :=
  let targetTemperature := formatTemp s.targetTemperature
  match lookupAL p.commands operationMode with
  | none => .error .keyError
  | some (.code _) => .error .attrError
  | some (.table opModeData) =>
    let fanModeData :=
      match lookupAL opModeData s.fanMode with
      | some v => if cmdTruthy v then some v else lookupAL opModeData "default"
      | none => lookupAL opModeData "default"
    if isSwingSupported p then
      match fanModeData with
      | none => .error .typeError
      | some (.code _) => .error .typeError
      | some (.table fanEntries) =>
        match s.swingMode with
        | none => .error .keyError
        | some sw =>
          match lookupAL fanEntries sw with
          | none => .error .keyError
          | some (.code c) => .ok (.code c)
          | some (.table swingEntries) =>
            match lookupAL swingEntries targetTemperature with
            | none => .error .keyError
            | some cmd => .ok cmd
    else
      match fanModeData with
      | none => .error .typeError
      | some (.code _) => .error .typeError
      | some (.table fanEntries) =>
        match lookupAL fanEntries targetTemperature with
        | none => .error .keyError
        | some cmd => .ok cmd

/-- `send_command` (climate.py lines 399–426), without the
`async_handle_exception_deco` wrapper: the emitted transport/sleep trace
together with the normal/exceptional outcome.  The `on` pulse and the settle
sleep are emitted *before* resolution, so they remain in the trace when
resolution fails.  Sending `off` while already off returns without touching
the transport.  `new_op_mode or self._hvac_mode` falls back to the current
mode when the argument is `None` or an empty (falsy) string. -/
def sendCommand (cfg : DeviceConfig) (s : ClimateState) (newOpMode : Option String) :
    List Ev × Except SendErr Unit :=
  let operationMode :=
    match newOpMode with
    | some m => if m = "" then s.hvacMode else m
    | none => s.hvacMode
  if strLower operationMode = HVAC_MODE_OFF then
    if s.hvacMode ≠ HVAC_MODE_OFF then
      match lookupAL cfg.profile.commands "off" with
      | some c => ([Ev.send c], .ok ())
      | none => ([], .error .keyError)
    else ([], .ok ())
  else
    let pre :=
      match lookupAL cfg.profile.commands "on" with
      | some onC => [Ev.send onC, Ev.sleep cfg.delay]
      | none => []
    match resolveCode cfg.profile s operationMode with
    | .ok c => (pre ++ [Ev.send c], .ok ())
    | .error e => (pre, .error e)

/-- What the *caller* of the decorated `send_command` observes:
`async_handle_exception_deco` catches every exception, logs it, and returns
`None` — exactly what the undecorated function returns on success — so the
decorated coroutine always completes normally with `None`. -/
def sendCommandObserved (cfg : DeviceConfig) (s : ClimateState)
    (newOpMode : Option String) : Except SendErr Unit :=
  match (sendCommand cfg s newOpMode).2 with
  | .ok _ => .ok ()
  | .error _ => .ok ()

/-- Whether the decorated `send_command` logged a swallowed exception. -/
def sendCommandLogged (cfg : DeviceConfig) (s : ClimateState)
    (newOpMode : Option String) : Bool :=
  match (sendCommand cfg s newOpMode).2 with
  | .ok _ => false
  | .error _ => true

/-- The transport/sleep trace the decorated `send_command` emits (the
decorator does not undo already-performed transport calls). -/
def sendCommandTrace (cfg : DeviceConfig) (s : ClimateState)
    (newOpMode : Option String) : List Ev :=
  (sendCommand cfg s newOpMode).1

/-- `async_set_hvac_mode` (climate.py lines 360–369): dispatch for the target
mode (exceptions swallowed by the decorator on `send_command`), then commit
`_hvac_mode` and `_last_on_operation` unconditionally; `_last_on_operation`
is reset to `None` when the new mode is off. -/
def setHvacMode (cfg : DeviceConfig) (s : ClimateState) (hvacMode : String) :
    ClimateState × List Ev :=
  let tr := sendCommandTrace cfg s (some hvacMode)
  let lastOn : Option String :=
    if strLower hvacMode = HVAC_MODE_OFF then none else some hvacMode
  ({ s with hvacMode := hvacMode, lastOnOperation := lastOn }, tr)

/-- `async_set_temperature` (climate.py lines 334–358).  `hvacModeArg` and
`temperature` are the `hvac_mode` / `temperature` entries of `kwargs`
(`none` = absent).  Out-of-range temperatures return before any state change
or transmission; otherwise the target is stored rounded (`round(t)` for
`PRECISION_WHOLE`, `round(t, 1)` otherwise), then either the operation
delegates to `setHvacMode` (truthy `hvac_mode` argument) or dispatches when
the device is on. -/
def setTemperature (cfg : DeviceConfig) (s : ClimateState)
    (hvacModeArg : Option String) (temperature : Option ℚ) :
    ClimateState × List Ev :=
  match temperature with
  | none => (s, [])
  | some t =>
    if t < cfg.profile.minTemperature ∨ cfg.profile.maxTemperature < t then (s, [])
    else
      let s1 := { s with targetTemperature :=
        if cfg.profile.precision = 1 then (pyRound t : ℚ) else pyRound1 t }
      match hvacModeArg with
      | some hm =>
        if hm = "" then
          if strLower s1.hvacMode ≠ HVAC_MODE_OFF then
            (s1, sendCommandTrace cfg s1 none)
          else (s1, [])
        else setHvacMode cfg s1 hm
      | none =>
        if strLower s1.hvacMode ≠ HVAC_MODE_OFF then
          (s1, sendCommandTrace cfg s1 none)
        else (s1, [])

/-- `async_set_fan_mode` (climate.py lines 371–377), condition verbatim:
`if not self._hvac_mode.lower() != HVAC_MODE_OFF: await self.send_command()`. -/
def setFanMode (cfg : DeviceConfig) (s : ClimateState) (fanMode : String) :
    ClimateState × List Ev :=
  let s1 := { s with fanMode := fanMode }
  if ¬strLower s1.hvacMode ≠ HVAC_MODE_OFF then
    (s1, sendCommandTrace cfg s1 none)
  else (s1, [])

/-- `async_set_swing_mode` (climate.py lines 379–385), condition verbatim:
`if not self._hvac_mode.lower() != HVAC_MODE_OFF: await self.send_command()`. -/
def setSwingMode (cfg : DeviceConfig) (s : ClimateState) (swingMode : String) :
    ClimateState × List Ev :=
  let s1 := { s with swingMode := some swingMode }
  if ¬strLower s1.hvacMode ≠ HVAC_MODE_OFF then
    (s1, sendCommandTrace cfg s1 none)
  else (s1, [])

/-- `async_turn_off` (climate.py lines 387–389). -/
def turnOff (cfg : DeviceConfig) (s : ClimateState) : ClimateState × List Ev :=
  setHvacMode cfg s HVAC_MODE_OFF

/-- `async_turn_on` (climate.py lines 391–397): the default on-operation mode,
overridden by a truthy `_last_on_operation`. -/
def turnOn (cfg : DeviceConfig) (s : ClimateState) : ClimateState × List Ev :=
  let cmd :=
    match s.lastOnOperation with
    | some l => if l = "" then cfg.defaultOnOperationMode else l
    | none => cfg.defaultOnOperationMode
  setHvacMode cfg s cmd

/-- The error a power-sensor callback can raise: `old_state.state` when
`old_state is None` raises `AttributeError`. -/
inductive PowerEvErr where
  | attributeError
deriving DecidableEq

/-- `_async_power_sensor_changed` (climate.py lines 444–460).  `oldState` /
`newState` are the `.state` strings of the old/new sensor readings, `none`
when the reading object itself is `None`.  The handler performs no transport
call, so its trace component is always built as `[]`; the `Except` component
records whether an exception escaped (there is no decorator on this handler),
and the returned state reflects the mutations performed before any raise. -/
def powerSensorChanged (cfg : DeviceConfig) (s : ClimateState)
    (oldState newState : Option String) :
    ClimateState × List Ev × Except PowerEvErr Unit :=
  match newState with
  | none => (s, [], .ok ())
  | some ns =>
    match oldState with
    | none => (s, [], .error .attributeError)
    | some os =>
      if ns = os then (s, [], .ok ())
      else if ns = STATE_ON ∧ s.hvacMode = HVAC_MODE_OFF then
        let s1 := { s with hvacMode := STATE_ON }
        match s.lastOnOperation with
        | some l =>
          if cfg.powerSensorRestoreState ∧ l ≠ "" then
            ({ s1 with hvacMode := l }, [], .ok ())
          else (s1, [], .ok ())
        | none => (s1, [], .ok ())
      else if ns = STATE_OFF then
        ({ s with hvacMode := HVAC_MODE_OFF }, [], .ok ())
      else (s, [], .ok ())

/-- A temperature/humidity sensor reading as the update helpers see it:
the HA `unknown` state, a reading `float(...)` parses, or one it does not
(`ValueError`, caught by `handle_exception_deco`). -/
inductive SensorReading where
  | unknownState
  | numeric (q : ℚ)
  | unparsable

/-- `_async_update_temp` (climate.py lines 462–467) under its
`handle_exception_deco(ValueError, ...)` wrapper: unknown readings are
skipped, unparsable ones are logged and swallowed, numeric ones stored. -/
def updateTemp (s : ClimateState) (r : SensorReading) : ClimateState :=
  match r with
  | .numeric q => { s with currentTemperature := some q }
  | .unknownState => s
  | .unparsable => s

/-- `_async_update_humidity` (climate.py lines 469–474), as `updateTemp`. -/
def updateHumidity (s : ClimateState) (r : SensorReading) : ClimateState :=
  match r with
  | .numeric q => { s with currentHumidity := some q }
  | .unknownState => s
  | .unparsable => s

/-- `_async_temp_sensor_changed` (climate.py lines 428–434). -/
def tempSensorChanged (s : ClimateState) (newState : Option SensorReading) :
    ClimateState :=
  match newState with
  | none => s
  | some r => updateTemp s r

/-- `_async_humidity_sensor_changed` (climate.py lines 436–442). -/
def humiditySensorChanged (s : ClimateState) (newState : Option SensorReading) :
    ClimateState :=
  match newState with
  | none => s
  | some r => updateHumidity s r

/-- The entity state right after `SmartIRClimate.__init__` (climate.py lines
140–191): off, target temperature at the profile minimum, no last-on
operation, no sensor readings yet.  The fan/swing defaulting logic depends
only on configuration, so the resulting initial fan and swing modes are
parameters here. -/
def initState (p : DeviceProfile) (fan : String) (sw : Option String) : ClimateState :=
  { hvacMode := HVAC_MODE_OFF
    fanMode := fan
    swingMode := sw
    targetTemperature := p.minTemperature
    lastOnOperation := none
    currentTemperature := none
    currentHumidity := none }

/-- One application of a `SmartIRClimate` operation or sensor callback.  The
mode argument of `async_set_hvac_mode` (also when smuggled through the
`hvac_mode` entry of `async_set_temperature`'s kwargs) ranges over the
entity's advertised `hvac_modes` list; every other argument is arbitrary. -/
inductive Step (cfg : DeviceConfig) : ClimateState → ClimateState → Prop where
  | hvac (s : ClimateState) (m : String) (hm : m ∈ cfg.profile.operationModes) :
      Step cfg s (setHvacMode cfg s m).1
  | temp (s : ClimateState) (hma : Option String) (t : Option ℚ)
      (hm : ∀ m, hma = some m → m ∈ cfg.profile.operationModes) :
      Step cfg s (setTemperature cfg s hma t).1
  | fan (s : ClimateState) (f : String) : Step cfg s (setFanMode cfg s f).1
  | swing (s : ClimateState) (sw : String) : Step cfg s (setSwingMode cfg s sw).1
  | turnOnStep (s : ClimateState) : Step cfg s (turnOn cfg s).1
  | turnOffStep (s : ClimateState) : Step cfg s (turnOff cfg s).1
  | power (s : ClimateState) (oldS newS : Option String) :
      Step cfg s (powerSensorChanged cfg s oldS newS).1
  | tempSensor (s : ClimateState) (r : Option SensorReading) :
      Step cfg s (tempSensorChanged s r)
  | humSensor (s : ClimateState) (r : Option SensorReading) :
      Step cfg s (humiditySensorChanged s r)

/-- States reachable from `s0` by a sequence of operations. -/
def Reachable (cfg : DeviceConfig) (s0 s : ClimateState) : Prop :=
  Relation.ReflTransGen (Step cfg) s0 s

/-- What `SmartIRClimate.__init__` guarantees about the configuration:
`HVAC_MODE_OFF` heads the mode list (line 152) and the default on-operation
mode is a member (lines 173–177 fall back to `self._operation_modes[0]`). -/
structure WFConfig (cfg : DeviceConfig) : Prop where
  off_mem : HVAC_MODE_OFF ∈ cfg.profile.operationModes
  default_mem : cfg.defaultOnOperationMode ∈ cfg.profile.operationModes

/-- The hvac-mode membership invariant (with the `STATE_ON` escape hatch the
power-sensor handler introduces), plus the companion fact about
`_last_on_operation` that sustains it. -/
def HvacInv (cfg : DeviceConfig) (s : ClimateState) : Prop :=
  (s.hvacMode ∈ cfg.profile.operationModes ∨ s.hvacMode = STATE_ON) ∧
  ∀ l, s.lastOnOperation = some l → l ∈ cfg.profile.operationModes

theorem hvacInv_setHvacMode (cfg : DeviceConfig) (s : ClimateState) (m : String)
    (hm : m ∈ cfg.profile.operationModes) : HvacInv cfg (setHvacMode cfg s m).1 := by
  refine ⟨Or.inl hm, fun l hl => ?_⟩
  simp only [setHvacMode] at hl
  split at hl
  · exact absurd hl (by simp)
  · cases hl
    exact hm

theorem hvacInv_step (cfg : DeviceConfig) (hwf : WFConfig cfg) {s s' : ClimateState}
    (hstep : Step cfg s s') (hinv : HvacInv cfg s) : HvacInv cfg s' := by
  cases hstep with
  | hvac m hm => exact hvacInv_setHvacMode cfg s m hm
  | temp hma t hm =>
    cases t with
    | none => exact hinv
    | some tv =>
      by_cases hrange : tv < cfg.profile.minTemperature ∨ cfg.profile.maxTemperature < tv
      · simp only [setTemperature]
        rw [if_pos hrange]
        exact hinv
      · cases hma with
        | none =>
          simp only [setTemperature]
          rw [if_neg hrange]
          split <;> exact ⟨hinv.1, hinv.2⟩
        | some hmode =>
          by_cases he : hmode = ""
          · subst he
            simp only [setTemperature]
            rw [if_neg hrange]
            rw [if_true]
            split <;> exact ⟨hinv.1, hinv.2⟩
          · simp only [setTemperature]
            rw [if_neg hrange]
            rw [if_neg he]
            exact hvacInv_setHvacMode cfg _ hmode (hm hmode rfl)
  | fan f =>
    unfold setFanMode
    dsimp only
    split <;> exact ⟨hinv.1, hinv.2⟩
  | swing sw =>
    unfold setSwingMode
    dsimp only
    split <;> exact ⟨hinv.1, hinv.2⟩
  | turnOnStep =>
    unfold turnOn
    cases hl : s.lastOnOperation with
    | none => exact hvacInv_setHvacMode cfg s _ hwf.default_mem
    | some l =>
      dsimp only
      split
      · exact hvacInv_setHvacMode cfg s _ hwf.default_mem
      · exact hvacInv_setHvacMode cfg s _ (hinv.2 l hl)
  | turnOffStep =>
    exact hvacInv_setHvacMode cfg s _ hwf.off_mem
  | power oldS newS =>
    unfold powerSensorChanged
    cases newS with
    | none => exact hinv
    | some ns =>
      cases oldS with
      | none => exact hinv
      | some os =>
        dsimp only
        split
        · exact hinv
        · split
          · cases hl : s.lastOnOperation with
            | none => exact ⟨Or.inr rfl, fun l' h => Option.noConfusion h⟩
            | some l =>
              dsimp only
              split
              · exact ⟨Or.inl (hinv.2 l hl), fun l' h => Option.some.inj h ▸ hinv.2 l hl⟩
              · exact ⟨Or.inr rfl, fun l' h => Option.some.inj h ▸ hinv.2 l hl⟩
          · split
            · exact ⟨Or.inl hwf.off_mem, hinv.2⟩
            · exact hinv
  | tempSensor r =>
    cases r with
    | none => exact hinv
    | some rv =>
      cases rv with
      | numeric q => exact ⟨hinv.1, hinv.2⟩
      | unknownState => exact hinv
      | unparsable => exact hinv
  | humSensor r =>
    cases r with
    | none => exact hinv
    | some rv =>
      cases rv with
      | numeric q => exact ⟨hinv.1, hinv.2⟩
      | unknownState => exact hinv
      | unparsable => exact hinv

theorem hvacInv_initState (cfg : DeviceConfig) (hwf : WFConfig cfg)
    (fan : String) (sw : Option String) :
    HvacInv cfg (initState cfg.profile fan sw) :=
  ⟨Or.inl hwf.off_mem, fun l h => by simp [initState] at h⟩

theorem hvacInv_reachable (cfg : DeviceConfig) (hwf : WFConfig cfg)
    {s0 s : ClimateState} (h0 : HvacInv cfg s0) (hr : Reachable cfg s0 s) :
    HvacInv cfg s := by
  induction hr with
  | refl => exact h0
  | tail _ hstep ih => exact hvacInv_step cfg hwf hstep ih

theorem pyRound_near (q : ℚ) : |(pyRound q : ℚ) - q| ≤ 1 / 2 := by
  have hfl : ((⌊q⌋ : ℤ) : ℚ) ≤ q := Int.floor_le q
  have hfu : q < ((⌊q⌋ : ℤ) : ℚ) + 1 := Int.lt_floor_add_one q
  have hd0 : (0 : ℚ) < (q.den : ℚ) := by exact_mod_cast q.pos
  have hnum : (q.num : ℚ) = q * (q.den : ℚ) :=
    (div_eq_iff (ne_of_gt hd0)).mp (Rat.num_div_den q)
  unfold pyRound
  split_ifs with h1 h2 h3
  · have h1' : 2 * ((q.num : ℚ) - ((⌊q⌋ : ℤ) : ℚ) * (q.den : ℚ)) < (q.den : ℚ) := by
      exact_mod_cast h1
    rw [hnum] at h1'
    have hb : 2 * (q - ((⌊q⌋ : ℤ) : ℚ)) < 1 :=
      (mul_lt_mul_right hd0).mp (by linarith)
    rw [abs_le]
    constructor <;> linarith
  · have h2' : (q.den : ℚ) < 2 * ((q.num : ℚ) - ((⌊q⌋ : ℤ) : ℚ) * (q.den : ℚ)) := by
      exact_mod_cast h2
    rw [hnum] at h2'
    have hb : 1 < 2 * (q - ((⌊q⌋ : ℤ) : ℚ)) :=
      (mul_lt_mul_right hd0).mp (by linarith)
    push_cast
    rw [abs_le]
    constructor <;> linarith
  · have h1' : (q.den : ℚ) ≤ 2 * ((q.num : ℚ) - ((⌊q⌋ : ℤ) : ℚ) * (q.den : ℚ)) := by
      exact_mod_cast not_lt.mp h1
    have h2' : 2 * ((q.num : ℚ) - ((⌊q⌋ : ℤ) : ℚ) * (q.den : ℚ)) ≤ (q.den : ℚ) := by
      exact_mod_cast not_lt.mp h2
    rw [hnum] at h1' h2'
    have hb1 : 1 ≤ 2 * (q - ((⌊q⌋ : ℤ) : ℚ)) :=
      (mul_le_mul_right hd0).mp (by linarith)
    have hb2 : 2 * (q - ((⌊q⌋ : ℤ) : ℚ)) ≤ 1 :=
      (mul_le_mul_right hd0).mp (by linarith)
    rw [abs_le]
    constructor <;> linarith
  · have h1' : (q.den : ℚ) ≤ 2 * ((q.num : ℚ) - ((⌊q⌋ : ℤ) : ℚ) * (q.den : ℚ)) := by
      exact_mod_cast not_lt.mp h1
    have h2' : 2 * ((q.num : ℚ) - ((⌊q⌋ : ℤ) : ℚ) * (q.den : ℚ)) ≤ (q.den : ℚ) := by
      exact_mod_cast not_lt.mp h2
    rw [hnum] at h1' h2'
    have hb1 : 1 ≤ 2 * (q - ((⌊q⌋ : ℤ) : ℚ)) :=
      (mul_le_mul_right hd0).mp (by linarith)
    have hb2 : 2 * (q - ((⌊q⌋ : ℤ) : ℚ)) ≤ 1 :=
      (mul_le_mul_right hd0).mp (by linarith)
    push_cast
    rw [abs_le]
    constructor <;> linarith

theorem pyRound1_eq_div (q : ℚ) :
    pyRound1 q = (pyRound (decimalShift q 10) : ℚ) / 10 := by
  rw [pyRound1, Rat.mkRat_eq_div]
  norm_num

theorem pyRound1_near (q : ℚ) : |pyRound1 q - q| ≤ 1 / 20 := by
  have h := pyRound_near (decimalShift q 10)
  nth_rewrite 2 [decimalShift_eq] at h
  rw [pyRound1_eq_div]
  rw [abs_le] at h ⊢
  push_cast at h
  constructor <;> [linarith [h.1, h.2]; linarith [h.1, h.2]]

/-- The concrete scenario profile from the specification's testable
properties: modes `[off, cool, heat]`, fans `[low, high]`, no swing, whole
degrees 16–30, command table `{"on": "A", "cool": {"low": {"20": "C1",
"22": "C2"}}}` (plus a reserved `off` code `"B"`). -/
def scenProfile : DeviceProfile where
  minTemperature := 16
  maxTemperature := 30
  precision := 1
  operationModes := ["off", "cool", "heat"]
  fanModes := ["low", "high"]
  swingModes := none
  commands :=
    [("on", .code "A"),
     ("off", .code "B"),
     ("cool", .table [("low", .table [("20", .code "C1"), ("22", .code "C2")])])]

/-- Scenario entity configuration: settle delay 1, default on-mode `cool`,
power-sensor restore disabled. -/
def scenCfg : DeviceConfig where
  profile := scenProfile
  delay := 1
  defaultOnOperationMode := "cool"
  powerSensorRestoreState := false

/-- Scenario state with the device on and cooling at 22°. -/
def scenOn : ClimateState where
  hvacMode := "cool"
  fanMode := "low"
  swingMode := none
  targetTemperature := 22
  lastOnOperation := some "cool"
  currentTemperature := none
  currentHumidity := none

/-- Scenario state with the device off. -/
def scenOff : ClimateState where
  hvacMode := "off"
  fanMode := "low"
  swingMode := none
  targetTemperature := 22
  lastOnOperation := none
  currentTemperature := none
  currentHumidity := none

/-- Scenario state with the device heating (a mode the scenario command
table has no entry for). -/
def scenHeat : ClimateState where
  hvacMode := "heat"
  fanMode := "low"
  swingMode := none
  targetTemperature := 22
  lastOnOperation := some "heat"
  currentTemperature := none
  currentHumidity := none

/-- **C10.** A power-sensor event with a new reading but no old reading makes
`_async_power_sensor_changed` raise `AttributeError` at `old_state.state`,
before comparing readings or assigning any field: the state is unchanged and
no transport call happens. -/
theorem C10_power_event_missing_old_raises (cfg : DeviceConfig)
    (s : ClimateState) (r : String) :
    powerSensorChanged cfg s none (some r) =
      (s, [], .error PowerEvErr.attributeError) := rfl

/-- **C8.** `_async_power_sensor_changed` never makes a transport call (any
readings, repeated or not), and an observed transition to `off` (old reading
present and different from the new one) forces `hvacMode` to `off`, whatever
the current mode. -/
theorem C8_power_off_forces_off (cfg : DeviceConfig) (s : ClimateState)
    (oldS newS : Option String) :
    (powerSensorChanged cfg s oldS newS).2.1 = [] ∧
    (∀ os, oldS = some os → newS = some STATE_OFF → os ≠ STATE_OFF →
      (powerSensorChanged cfg s oldS newS).1.hvacMode = HVAC_MODE_OFF) := by
  constructor
  · cases newS with
    | none => rfl
    | some ns =>
      cases oldS with
      | none => rfl
      | some os =>
        unfold powerSensorChanged
        dsimp only
        split
        · rfl
        · split
          · cases s.lastOnOperation with
            | none => rfl
            | some l =>
              dsimp only
              split <;> rfl
          · split <;> rfl
  · rintro os rfl rfl hne
    unfold powerSensorChanged
    dsimp only
    rw [if_neg (fun h => hne h.symm)]
    rw [if_neg (fun h => absurd h.1 (by decide))]
    rw [if_pos rfl]

theorem C8_witness :
    (some "on" : Option String) = some "on" ∧
    (some STATE_OFF : Option String) = some STATE_OFF ∧ "on" ≠ STATE_OFF ∧
    (powerSensorChanged scenCfg scenOn (some "on") (some STATE_OFF)).2.1 = [] ∧
    (powerSensorChanged scenCfg scenOn (some "on") (some STATE_OFF)).1.hvacMode
      = HVAC_MODE_OFF :=
  ⟨rfl, rfl, by decide,
   (C8_power_off_forces_off scenCfg scenOn (some "on") (some STATE_OFF)).1,
   (C8_power_off_forces_off scenCfg scenOn (some "on") (some STATE_OFF)).2
     "on" rfl rfl (by decide)⟩

/-- **C9.** With `lastOnOperation` absent, `async_turn_on` delegates to
`async_set_hvac_mode` with the configured default operation mode, so the
resulting `hvacMode` equals that default. -/
theorem C9_turn_on_default (cfg : DeviceConfig) (s : ClimateState)
    (h : s.lastOnOperation = none) :
    turnOn cfg s = setHvacMode cfg s cfg.defaultOnOperationMode ∧
    (turnOn cfg s).1.hvacMode = cfg.defaultOnOperationMode := by
  unfold turnOn
  rw [h]
  exact ⟨rfl, rfl⟩

theorem C9_witness :
    scenOff.lastOnOperation = none ∧
    (turnOn scenCfg scenOff).1.hvacMode = scenCfg.defaultOnOperationMode :=
  ⟨rfl, (C9_turn_on_default scenCfg scenOff rfl).2⟩

/-- **C5.** Dispatching with target mode `off`: from a state already off
there is no transport call at all; from an on state exactly the reserved
`off` code is transmitted. -/
theorem C5_send_off (cfg : DeviceConfig) (s : ClimateState) (c : CmdNode) :
    (s.hvacMode = HVAC_MODE_OFF →
      sendCommand cfg s (some HVAC_MODE_OFF) = ([], .ok ())) ∧
    (s.hvacMode ≠ HVAC_MODE_OFF →
      lookupAL cfg.profile.commands "off" = some c →
      sendCommand cfg s (some HVAC_MODE_OFF) = ([Ev.send c], .ok ())) := by
  constructor
  · intro h
    unfold sendCommand
    dsimp only
    rw [if_neg (show ¬(HVAC_MODE_OFF = "") by decide)]
    rw [if_pos (show strLower HVAC_MODE_OFF = HVAC_MODE_OFF by decide)]
    rw [if_neg (not_not_intro h)]
  · intro h hc
    unfold sendCommand
    dsimp only
    rw [if_neg (show ¬(HVAC_MODE_OFF = "") by decide)]
    rw [if_pos (show strLower HVAC_MODE_OFF = HVAC_MODE_OFF by decide)]
    rw [if_pos h, hc]

theorem C5_witness :
    (scenOff.hvacMode = HVAC_MODE_OFF ∧
      sendCommand scenCfg scenOff (some HVAC_MODE_OFF) = ([], .ok ())) ∧
    (scenOn.hvacMode ≠ HVAC_MODE_OFF ∧
      lookupAL scenCfg.profile.commands "off" = some (.code "B") ∧
      sendCommand scenCfg scenOn (some HVAC_MODE_OFF) =
        ([Ev.send (.code "B")], .ok ())) :=
  ⟨⟨rfl, (C5_send_off scenCfg scenOff (.code "B")).1 rfl⟩,
   ⟨by decide, rfl, (C5_send_off scenCfg scenOn (.code "B")).2 (by decide) rfl⟩⟩

/-- **C6.** Dispatching a truthy non-off target mode whose resolution
succeeds: with a reserved `on` code the transport sequence is exactly the
`on` code, the settle sleep of the configured delay, then the single
resolved code; without a reserved `on` code it is exactly the resolved
code. -/
theorem C6_send_on_sequence (cfg : DeviceConfig) (s : ClimateState)
    (m : String) (c : CmdNode) (hm : m ≠ "")
    (hoff : strLower m ≠ HVAC_MODE_OFF)
    (hres : resolveCode cfg.profile s m = .ok c) :
    (∀ onC, lookupAL cfg.profile.commands "on" = some onC →
      sendCommand cfg s (some m) =
        ([Ev.send onC, Ev.sleep cfg.delay, Ev.send c], .ok ())) ∧
    (lookupAL cfg.profile.commands "on" = none →
      sendCommand cfg s (some m) = ([Ev.send c], .ok ())) := by
  constructor
  · intro onC honC
    unfold sendCommand
    dsimp only
    rw [if_neg hm, if_neg hoff, honC, hres]
    rfl
  · intro hnone
    unfold sendCommand
    dsimp only
    rw [if_neg hm, if_neg hoff, hnone, hres]
    rfl

theorem C6_witness :
    ("cool" ≠ "" ∧ strLower "cool" ≠ HVAC_MODE_OFF ∧
      resolveCode scenCfg.profile scenOn "cool" = .ok (.code "C2") ∧
      lookupAL scenCfg.profile.commands "on" = some (.code "A")) ∧
    sendCommand scenCfg scenOn (some "cool") =
      ([Ev.send (.code "A"), Ev.sleep scenCfg.delay, Ev.send (.code "C2")],
        .ok ()) :=
  ⟨⟨by decide, by decide, rfl, rfl⟩,
   (C6_send_on_sequence scenCfg scenOn "cool" (.code "C2") (by decide)
     (by decide) rfl).1 (.code "A") rfl⟩

theorem setTemperature_target (cfg : DeviceConfig) (s : ClimateState) (t : ℚ)
    (hr : ¬(t < cfg.profile.minTemperature ∨ cfg.profile.maxTemperature < t)) :
    (setTemperature cfg s none (some t)).1.targetTemperature =
      if cfg.profile.precision = 1 then (pyRound t : ℚ) else pyRound1 t := by
  simp only [setTemperature, if_neg hr]
  split <;> rfl

/-- **C4.** `async_set_temperature` with a plain temperature: out of
`[min, max]` the state is returned unchanged with no transmission; inside the
range the stored target is the temperature rounded to the profile precision —
a whole number within 1/2 of the request for `PRECISION_WHOLE`, an integral
multiple of one tenth within 1/20 of the request otherwise. -/
theorem C4_set_temperature (cfg : DeviceConfig) (s : ClimateState) (t : ℚ) :
    ((t < cfg.profile.minTemperature ∨ cfg.profile.maxTemperature < t) →
      setTemperature cfg s none (some t) = (s, [])) ∧
    (cfg.profile.minTemperature ≤ t → t ≤ cfg.profile.maxTemperature →
      ∃ z : ℤ,
        ((setTemperature cfg s none (some t)).1.targetTemperature =
          if cfg.profile.precision = 1 then (z : ℚ) else (z : ℚ) / 10) ∧
        |(setTemperature cfg s none (some t)).1.targetTemperature - t| ≤
          if cfg.profile.precision = 1 then 1 / 2 else 1 / 20) := by
  constructor
  · intro h
    simp only [setTemperature, if_pos h]
  · intro h1 h2
    have hr : ¬(t < cfg.profile.minTemperature ∨ cfg.profile.maxTemperature < t) :=
      not_or.mpr ⟨not_lt.mpr h1, not_lt.mpr h2⟩
    rw [setTemperature_target cfg s t hr]
    by_cases hp : cfg.profile.precision = 1
    · refine ⟨pyRound t, ?_, ?_⟩
      · rw [if_pos hp, if_pos hp]
      · rw [if_pos hp, if_pos hp]
        exact pyRound_near t
    · refine ⟨pyRound (decimalShift t 10), ?_, ?_⟩
      · rw [if_neg hp, if_neg hp]
        exact pyRound1_eq_div t
      · rw [if_neg hp, if_neg hp]
        exact pyRound1_near t

theorem C4_witness :
    (((31 : ℚ) < scenCfg.profile.minTemperature ∨
        scenCfg.profile.maxTemperature < (31 : ℚ)) ∧
      setTemperature scenCfg scenOn none (some 31) = (scenOn, [])) ∧
    ((scenCfg.profile.minTemperature ≤ mkRat 224 10 ∧
        mkRat 224 10 ≤ scenCfg.profile.maxTemperature) ∧
      ∃ z : ℤ,
        ((setTemperature scenCfg scenOn none (some (mkRat 224 10))).1.targetTemperature =
          if scenCfg.profile.precision = 1 then (z : ℚ) else (z : ℚ) / 10) ∧
        |(setTemperature scenCfg scenOn none (some (mkRat 224 10))).1.targetTemperature -
            mkRat 224 10| ≤
          if scenCfg.profile.precision = 1 then 1 / 2 else 1 / 20) :=
  ⟨⟨by decide, (C4_set_temperature scenCfg scenOn 31).1 (by decide)⟩,
   ⟨⟨by decide, by decide⟩,
    (C4_set_temperature scenCfg scenOn (mkRat 224 10)).2 (by decide) (by decide)⟩⟩

/-- **C1** (code bug): the guard in `async_set_fan_mode` /
`async_set_swing_mode` is inverted — `if not self._hvac_mode.lower() !=
HVAC_MODE_OFF` calls `send_command` exactly when the device is OFF.  While ON
(here: cooling) a fan or swing change updates the field but emits no
transport call at all; while OFF, `send_command` is invoked but sending `off`
while already off is a no-op, so nothing is emitted either.  The spec
requires a transmission of the new full state while on. -/
theorem C1_fan_swing_guard_inverted :
    ((setFanMode scenCfg scenOn "high").1.fanMode = "high" ∧
      (setFanMode scenCfg scenOn "high").2 = []) ∧
    ((setSwingMode scenCfg scenOn "vertical").1.swingMode = some "vertical" ∧
      (setSwingMode scenCfg scenOn "vertical").2 = []) ∧
    ((setFanMode scenCfg scenOff "high").1.fanMode = "high" ∧
      (setFanMode scenCfg scenOff "high").2 = []) :=
  ⟨⟨rfl, rfl⟩, ⟨rfl, rfl⟩, ⟨rfl, rfl⟩⟩

/-- **C2** (counterexample): from `hvacMode = "heat"`, `turnOff` then
`turnOn` ends in the configured default mode `"cool"`, not `"heat"`:
`async_set_hvac_mode` cleared `lastOnOperation` on the way off. -/
theorem C2_counterexample :
    scenHeat.hvacMode = "heat" ∧
    (turnOn scenCfg (turnOff scenCfg scenHeat).1).1.hvacMode ≠ "heat" :=
  ⟨rfl, by decide⟩

/-- **C2** (amended): after `turnOff()` then `turnOn()` with no intervening
operation, `hvacMode` is the configured default on-operation mode — turning
off cleared `lastOnOperation` — so it equals the previously active mode only
when that mode is the default. -/
theorem C2_amended_turn_off_on (cfg : DeviceConfig) (s : ClimateState)
    (m : String) (_hmode : s.hvacMode = m) (_hm : m ≠ HVAC_MODE_OFF) :
    (turnOn cfg (turnOff cfg s).1).1.hvacMode = cfg.defaultOnOperationMode := by
  have h1 : (turnOff cfg s).1.lastOnOperation = none := by
    unfold turnOff setHvacMode
    dsimp only
    rw [if_pos (show strLower HVAC_MODE_OFF = HVAC_MODE_OFF by decide)]
  unfold turnOn
  rw [h1]
  rfl

theorem C2_amended_witness :
    scenHeat.hvacMode = "heat" ∧ "heat" ≠ HVAC_MODE_OFF ∧
    (turnOn scenCfg (turnOff scenCfg scenHeat).1).1.hvacMode =
      scenCfg.defaultOnOperationMode :=
  ⟨rfl, by decide, C2_amended_turn_off_on scenCfg scenHeat "heat" rfl (by decide)⟩

/-- The state the power-sensor handler produces when an external power-on is
observed from the scenario's initial (off) state with restore disabled. -/
def scenPowerOn : ClimateState :=
  (powerSensorChanged scenCfg (initState scenProfile "low" none)
    (some "off") (some "on")).1

/-- **C3** (counterexample): one power-sensor transition `off → on` from the
initial state puts `hvacMode = "on"` — the generic `STATE_ON` marker — which
is not a member of the profile's operation-mode list. -/
theorem C3_counterexample :
    Reachable scenCfg (initState scenProfile "low" none) scenPowerOn ∧
    scenPowerOn.hvacMode ∉ scenCfg.profile.operationModes :=
  ⟨Relation.ReflTransGen.single
    (Step.power (initState scenProfile "low" none) (some "off") (some "on")),
   by decide⟩

/-- **C3** (amended): in every state reachable from the initial state by any
sequence of operations, `hvacMode` is a member of the profile's
operation-mode list *or* the generic `STATE_ON` ("on, mode unknown") marker
that an external power-on event writes when no restorable mode exists. -/
theorem C3_amended_hvac_mode_member (cfg : DeviceConfig) (fan : String)
    (sw : Option String) (s : ClimateState) (hwf : WFConfig cfg)
    (hr : Reachable cfg (initState cfg.profile fan sw) s) :
    s.hvacMode ∈ cfg.profile.operationModes ∨ s.hvacMode = STATE_ON :=
  (hvacInv_reachable cfg hwf (hvacInv_initState cfg hwf fan sw) hr).1

theorem C3_amended_witness :
    (HVAC_MODE_OFF ∈ scenCfg.profile.operationModes ∧
      scenCfg.defaultOnOperationMode ∈ scenCfg.profile.operationModes) ∧
    (scenPowerOn.hvacMode ∈ scenCfg.profile.operationModes ∨
      scenPowerOn.hvacMode = STATE_ON) :=
  ⟨⟨by decide, by decide⟩,
   C3_amended_hvac_mode_member scenCfg "low" none scenPowerOn
     ⟨by decide, by decide⟩
     (Relation.ReflTransGen.single
       (Step.power (initState scenProfile "low" none) (some "off") (some "on")))⟩

/-- **C7** (counterexample): dispatching from mode `"heat"` — absent from the
scenario command table — fails inside `send_command` with a `KeyError`, yet
the decorated coroutine completes normally returning `None`, exactly what a
successful dispatch returns: the caller cannot distinguish the failure from
success. -/
theorem C7_counterexample :
    (sendCommand scenCfg scenHeat none).2 = .error SendErr.keyError ∧
    sendCommandObserved scenCfg scenHeat none = .ok () ∧
    (sendCommand scenCfg scenOn none).2 = .ok () ∧
    sendCommandObserved scenCfg scenOn none = .ok () :=
  ⟨rfl, rfl, rfl, rfl⟩

/-- **C7** (amended): every resolution/transport failure inside
`send_command` is caught by `async_handle_exception_deco` and logged, and the
decorated dispatch always completes normally (the session stays alive and
`send_command` itself never mutates entity state) — but the caller observes
the same `None` as on success, so the failure is *not* surfaced
distinguishably. -/
theorem C7_amended_failures_swallowed (cfg : DeviceConfig)
    (s : ClimateState) (op : Option String) :
    sendCommandObserved cfg s op = .ok () ∧
    (sendCommandLogged cfg s op = true ↔
      ∃ e, (sendCommand cfg s op).2 = .error e) := by
  constructor
  · unfold sendCommandObserved
    split <;> rfl
  · unfold sendCommandLogged
    cases h : (sendCommand cfg s op).2 with
    | error e => simp
    | ok u => simp
